import Mathlib

/-!
# Verification of the pox request/response bridging layer

Shallow embedding of `src/crates/pox-embed/src/embed.c` (web/worker SAPI part):
the request context, the growable response buffers, the CGI environment
projection, cookie extraction, the POST read cursor and the worker-mode
request handler.  Bytes of C strings are modelled as `List Char`; C `NULL`
pointers as `Option`; `size_t` as `Nat`; C `int` as `Int` where sign matters
and `Bool` for flags used as booleans.

The file first gives the definitions (translated from the C source, with the
spec-level reference definitions used by refinement statements clearly
marked), then the supporting lemmas, then one theorem per specification
claim.
-/

set_option autoImplicit false

namespace Pox

/-! ## Response buffers (embed.c lines 500-555)

A response buffer is a pointer / length / capacity triple embedded in the
request context.  `mem = none` models a `NULL` pointer; when the pointer is
non-NULL, `mem = some bytes` records the meaningful prefix (the first `len`
bytes) of the allocation — bytes between `len` and `cap` are uninitialised in
the C program and are not modelled. -/
structure RespBuf where
  mem : Option (List Char)
  len : Nat
  cap : Nat
deriving Repr, DecidableEq

/-- The grow loop of `append_response_body` / `append_response_header`
(embed.c lines 522-529 and 543-550), assuming every `realloc` succeeds:
`while (len + need >= cap) { cap = cap ? cap*2 : init; }`.
The loop is bounded by fuel; `growCapFuel_gt` below shows the fuel chosen in
`growCap` always suffices, so the model agrees with the (terminating) C loop. -/
def growCapFuel : Nat → Nat → Nat → Nat → Nat
  | 0, _, _, cap => cap
  | fuel + 1, init, needed, cap =>
    if needed ≥ cap then
      growCapFuel fuel init needed (if cap = 0 then init else cap * 2)
    else cap

def growCap (init needed cap : Nat) : Nat :=
  growCapFuel (needed + 2) init needed cap

/-- The grow loop with an allocation oracle: `allocs` lists the outcomes of
the successive `realloc` calls (`false` = allocation failure, embed.c line
526/547 `if (new_buf == NULL) return;`).  Returns whether the loop completed
together with the capacity reached.  An exhausted oracle counts as failure. -/
def growCapAlloc (init needed cap : Nat) : List Bool → Bool × Nat
  | [] => if needed ≥ cap then (false, cap) else (true, cap)
  | ok :: rest =>
    if needed ≥ cap then
      if ok then growCapAlloc init needed (if cap = 0 then init else cap * 2) rest
      else (false, cap)
    else (true, cap)

/-- `append_response_body` (embed.c lines 518-533), buffer part, assuming all
allocations succeed: grow by doubling from 8192, then
`memcpy(buf + len, data, len_data); len += len_data;`. -/
def append_response_body (b : RespBuf) (data : List Char) : RespBuf :=
  { mem := some (b.mem.getD [] ++ data)
    len := b.len + data.length
    cap := growCap 8192 (b.len + data.length) b.cap }

/-- `append_response_header` (embed.c lines 536-555), buffer part, assuming
all allocations succeed: `total_len = len + 1` (room for the trailing
newline), grow by doubling from 4096, copy the header, then append `'\n'`. -/
def append_response_header (b : RespBuf) (header : List Char) : RespBuf :=
  { mem := some (b.mem.getD [] ++ header ++ ['\n'])
    len := b.len + (header.length + 1)
    cap := growCap 4096 (b.len + (header.length + 1)) b.cap }

/-- `append_response_body` with the allocation oracle: when some `realloc`
in the grow loop fails the function returns at once (embed.c line 526) —
no bytes are copied and the length is not updated, but capacities reached by
the earlier, successful doublings remain in place. -/
def append_response_body_oom (allocs : List Bool) (b : RespBuf) (data : List Char) : RespBuf :=
  let g := growCapAlloc 8192 (b.len + data.length) b.cap allocs
  if g.1 then
    { mem := some (b.mem.getD [] ++ data), len := b.len + data.length, cap := g.2 }
  else
    { b with cap := g.2 }

/-- `append_response_header` with the allocation oracle (embed.c line 547). -/
def append_response_header_oom (allocs : List Bool) (b : RespBuf) (header : List Char) : RespBuf :=
  let g := growCapAlloc 4096 (b.len + (header.length + 1)) b.cap allocs
  if g.1 then
    { mem := some (b.mem.getD [] ++ header ++ ['\n'])
      len := b.len + (header.length + 1), cap := g.2 }
  else
    { b with cap := g.2 }

/-- The byte content of a buffer (`NULL` reads as empty). -/
def RespBuf.content (b : RespBuf) : List Char := b.mem.getD []

/-- A buffer before its first use: `NULL` pointer, zero length, zero capacity. -/
def RespBuf.empty : RespBuf := ⟨none, 0, 0⟩

/-! ## Request context (embed.c lines 476-512, `pox_request_context`)

Request-side C strings that may be `NULL` are `Option`; `content_length`,
`request_body_len` and `request_body_read` are `size_t` (`Nat`);
`server_port`, `remote_port` and `response_status` are C `int` (`Int`).
The two pointer/length/capacity field triples are grouped as `RespBuf`. -/
structure pox_request_context where
  method : Option String
  uri : Option String
  query_string : Option String
  content_type : Option String
  content_length : Nat
  request_body : Option (List Char)
  request_body_len : Nat
  request_body_read : Nat
  headers : Option (List Char)
  document_root : Option String
  script_filename : Option String
  server_name : Option String
  server_port : Int
  remote_addr : Option String
  remote_port : Int
  response_body : RespBuf
  response_headers : RespBuf
  response_status : Int
deriving Repr, DecidableEq

/-- The response-field initialisation block shared verbatim by
`pox_web_execute` (embed.c lines 861-868) and the `Serving` entry of
`pox_handle_request` (embed.c lines 995-1002): both buffers to
`NULL`/0-length/0-capacity, status 200, body-read cursor 0. -/
def reset_response_fields (ctx : pox_request_context) : pox_request_context :=
  { ctx with
    response_body := ⟨none, 0, 0⟩
    response_headers := ⟨none, 0, 0⟩
    response_status := 200
    request_body_read := 0 }

/-- The start of `pox_web_execute` (embed.c lines 858-868): the context is
installed as the current request and its response fields are initialised.
The subsequent engine startup and script execution are performed by the
guest engine (external collaborator) and are not modelled. -/
def pox_web_execute_start (ctx : pox_request_context) : pox_request_context :=
  reset_response_fields ctx

/-- `pox_free_response` (embed.c lines 920-929): each non-`NULL` response
buffer pointer is freed and set to `NULL`.  The length and capacity fields
are not touched by the C code. -/
def pox_free_response (ctx : pox_request_context) : pox_request_context :=
  let c1 :=
    if ctx.response_body.mem.isSome then
      { ctx with response_body := { ctx.response_body with mem := none } }
    else ctx
  if c1.response_headers.mem.isSome then
    { c1 with response_headers := { c1.response_headers with mem := none } }
  else c1

/-! ## SAPI callbacks over the thread-local `current_request`
(embed.c line 515: `static __thread pox_request_context *current_request`).
Each callback takes the slot value (`none` = no current request). -/

/-- `pox_web_read_post` (embed.c lines 597-612).  Returns the updated slot
and the bytes copied into the caller's buffer.  `remaining` is the `size_t`
difference `request_body_len - request_body_read`; modelled with `Nat`
subtraction, which agrees with C whenever the cursor has not run past the
length — the only states the code itself produces, since the cursor starts
at 0 and advances by at most `remaining`. -/
def pox_web_read_post (cr : Option pox_request_context) (count_bytes : Nat) :
    Option pox_request_context × List Char :=
  match cr with
  | none => (none, [])
  | some ctx =>
    match ctx.request_body with
    | none => (some ctx, [])
    | some body =>
      let remaining := ctx.request_body_len - ctx.request_body_read
      if remaining = 0 then (some ctx, [])
      else
        let to_read := if count_bytes < remaining then count_bytes else remaining
        (some { ctx with request_body_read := ctx.request_body_read + to_read },
         (body.drop ctx.request_body_read).take to_read)

/-- `pox_web_ub_write` (embed.c lines 558-561): append to the response body
(a no-op when there is no current request, embed.c line 519) and report the
full length as written. -/
def pox_web_ub_write (cr : Option pox_request_context) (str : List Char) :
    Option pox_request_context × Nat :=
  match cr with
  | none => (none, str.length)
  | some ctx =>
    (some { ctx with response_body := append_response_body ctx.response_body str },
     str.length)

/-- C `atoi`: skip leading whitespace, optional sign, then leading digits. -/
def cAtoiDigits : List Char → Nat → Nat
  | [], acc => acc
  | c :: rest, acc =>
    if '0' ≤ c ∧ c ≤ '9' then cAtoiDigits rest (acc * 10 + (c.toNat - '0'.toNat))
    else acc

def cAtoi (s : List Char) : Int :=
  let s1 := s.dropWhile
    (fun c => c = ' ' ∨ c = '\t' ∨ c = '\n' ∨ c = '\x0b' ∨ c = '\x0c' ∨ c = '\r')
  match s1 with
  | '-' :: rest => - (cAtoiDigits rest 0 : Int)
  | '+' :: rest => (cAtoiDigits rest 0 : Int)
  | _ => (cAtoiDigits s1 0 : Int)

/-- `pox_web_send_headers` (embed.c lines 570-594).  Inputs beyond the slot
are the SAPI globals it reads: the optional status line (e.g.
`"HTTP/1.1 404 Not Found"` — `atoi(line + 9)` parses the numeric code), the
numeric response code, and the list of collected header entries.  Returns
the updated slot and whether `SAPI_HEADER_SENT_SUCCESSFULLY` was returned
(always the case). -/
def pox_web_send_headers (cr : Option pox_request_context)
    (http_status_line : Option (List Char)) (http_response_code : Int)
    (headers : List (List Char)) : Option pox_request_context × Bool :=
  match cr with
  | none => (none, true)
  | some ctx =>
    let status : Int :=
      match http_status_line with
      | some line => cAtoi (line.drop 9)
      | none => if http_response_code = 0 then 200 else http_response_code
    let ctx1 := { ctx with response_status := status }
    let ctx2 := { ctx1 with
      response_headers := headers.foldl append_response_header ctx1.response_headers }
    (some ctx2, true)

/-! ## Header-block line scanning

Both `pox_web_read_cookies` (embed.c lines 625-648) and the `HTTP_*` block of
`pox_web_register_variables` (embed.c lines 723-764) walk the flattened
header block with the same loop:
`while (*line) { eol = strchr(line, '\n'); ...; if (!eol) break; line = eol+1; }`.
`cLines` is that walk's line decomposition: '\n'-separated segments, except
that a trailing empty segment (string empty or ending in '\n') is never
visited because the loop guard `*line` sees the terminating NUL. -/
def cLines : List Char → List (List Char)
  | [] => []
  | c :: tl =>
    if c = '\n' then [] :: cLines tl
    else
      match cLines tl with
      | [] => [[c]]
      | h :: t => (c :: h) :: t

/-- Reference definition, from the spec's words: "lines are delimited by
`\n`" — the plain split of the block at every newline, keeping a trailing
empty line.  Used on the specification side of the refinement theorems. -/
def splitNL : List Char → List (List Char)
  | [] => [[]]
  | c :: tl =>
    if c = '\n' then [] :: splitNL tl
    else
      match splitNL tl with
      | [] => [[c]]
      | h :: t => (c :: h) :: t

/-- The character transform of the `HTTP_*` name derivation
(embed.c lines 736-743): dash to underscore, ASCII lowercase to uppercase,
everything else unchanged. -/
def httpNameChar (c : Char) : Char :=
  if c = '-' then '_'
  else if 'a' ≤ c ∧ c ≤ 'z' then Char.ofNat (c.toNat - 32)
  else c

/-- One line of the `HTTP_*` registration loop (embed.c lines 728-759):
`memchr` for the first ':'; no colon ignores the line; otherwise the name
(before the colon) becomes `HTTP_` + transformed name, the value is the text
after the colon with leading spaces/tabs skipped, and the two derived names
`HTTP_CONTENT_TYPE` / `HTTP_CONTENT_LENGTH` are suppressed (lines 753-754). -/
def http_var_of_line (line : List Char) : Option (List Char × List Char) :=
  match line.dropWhile (fun c => ¬ c = ':') with
  | [] => none
  | _ :: after_colon =>
    let name := line.takeWhile (fun c => ¬ c = ':')
    let var_name := "HTTP_".toList ++ name.map httpNameChar
    let value := after_colon.dropWhile (fun c => c = ' ' ∨ c = '\t')
    if var_name = "HTTP_CONTENT_TYPE".toList ∨ var_name = "HTTP_CONTENT_LENGTH".toList then
      none
    else
      some (var_name, value)

/-- The `HTTP_*` header projection of `pox_web_register_variables`
(embed.c lines 722-765): the line walk composed with the per-line step. -/
def pox_web_register_http_vars (headers : List Char) : List (List Char × List Char) :=
  (cLines headers).filterMap http_var_of_line

/-- Reference definition, from the spec's words (spec §4.2 and claim C4):
each newline-delimited line containing a ':' is projected; the name is the
text before the first ':', uppercased with dashes as underscores and prefixed
with `HTTP_`; the value is the text after the first ':' with leading spaces
and tabs trimmed; lines with no ':' are ignored; derived names
`HTTP_CONTENT_TYPE` and `HTTP_CONTENT_LENGTH` are suppressed. -/
def http_var_of_line_spec (line : List Char) : Option (List Char × List Char) :=
  if ':' ∈ line then
    let name := line.takeWhile (fun c => ¬ c = ':')
    let var_name := "HTTP_".toList ++ name.map httpNameChar
    let value := ((line.dropWhile (fun c => ¬ c = ':')).tail).dropWhile
      (fun c => c = ' ' ∨ c = '\t')
    if var_name = "HTTP_CONTENT_TYPE".toList ∨ var_name = "HTTP_CONTENT_LENGTH".toList then
      none
    else
      some (var_name, value)
  else none

def http_vars_spec (headers : List Char) : List (List Char × List Char) :=
  (splitNL headers).filterMap http_var_of_line_spec

/-- ASCII `tolower`, as used by `strncasecmp`. -/
def asciiLower (c : Char) : Char :=
  if 'A' ≤ c ∧ c ≤ 'Z' then Char.ofNat (c.toNat + 32) else c

/-- One line of the cookie scan (embed.c lines 631-644): the line matches
when it is longer than 7 bytes and its first 7 bytes case-insensitively
equal `"Cookie:"`; the value is the rest of the line with leading spaces and
tabs skipped. -/
def cookie_of_line (line : List Char) : Option (List Char) :=
  if 7 < line.length ∧ (line.take 7).map asciiLower = "cookie:".toList then
    some ((line.drop 7).dropWhile (fun c => c = ' ' ∨ c = '\t'))
  else none

/-- The header-block scan of `pox_web_read_cookies`
(embed.c lines 620-650): first matching line wins; no match yields `NULL`. -/
def pox_web_read_cookies_scan (headers : List Char) : Option (List Char) :=
  (cLines headers).findSome? cookie_of_line

/-- `pox_web_read_cookies` (embed.c lines 615-651) over the thread-local
slot: `NULL` current request or `NULL` header block yields `NULL`. -/
def pox_web_read_cookies (cr : Option pox_request_context) : Option (List Char) :=
  match cr with
  | none => none
  | some ctx =>
    match ctx.headers with
    | none => none
    | some hs => pox_web_read_cookies_scan hs

/-- Reference definition, from claim C6's words: the value of the first
newline-delimited line whose name (the text before the first ':')
case-insensitively matches `Cookie`, with leading spaces and tabs after the
colon trimmed; `none` when no line matches. -/
def cookie_of_line_claim (line : List Char) : Option (List Char) :=
  if ':' ∈ line ∧ (line.takeWhile (fun c => ¬ c = ':')).map asciiLower = "cookie".toList then
    some (((line.dropWhile (fun c => ¬ c = ':')).tail).dropWhile
      (fun c => c = ' ' ∨ c = '\t'))
  else none

def read_cookies_claim (headers : List Char) : Option (List Char) :=
  (splitNL headers).findSome? cookie_of_line_claim

/-- Reference definition for the amended C6: same as the claim, except a
matching line must extend past the colon — equivalently, it is longer than 7
bytes and its first 7 bytes case-insensitively equal `"Cookie:"`; a bare
`"Cookie:"` line (nothing after the colon) is not matched. -/
def read_cookies_amended (headers : List Char) : Option (List Char) :=
  (splitNL headers).findSome? cookie_of_line

/-- The CGI variable block of `pox_web_register_variables`
(embed.c lines 661-719), in registration order, as name/value pairs.
(The preceding `php_import_environment_variables` call and the engine-side
`php_register_variable_safe` sink are guest-engine functionality.) -/
def pox_web_register_cgi_vars (ctx : pox_request_context) : List (String × String) :=
  [("REQUEST_METHOD", ctx.method.getD "GET"),
   ("REQUEST_URI", ctx.uri.getD "/"),
   ("QUERY_STRING", ctx.query_string.getD ""),
   ("SCRIPT_FILENAME", ctx.script_filename.getD ""),
   ("SCRIPT_NAME", ctx.uri.getD "/"),
   ("PHP_SELF", ctx.uri.getD "/"),
   ("DOCUMENT_ROOT", ctx.document_root.getD ""),
   ("SERVER_NAME", ctx.server_name.getD "localhost"),
   ("SERVER_PORT", toString (if ctx.server_port > 0 then ctx.server_port else 80)),
   ("REMOTE_ADDR", ctx.remote_addr.getD "127.0.0.1"),
   ("REMOTE_PORT", toString ctx.remote_port),
   ("SERVER_SOFTWARE", "phpx"),
   ("SERVER_PROTOCOL", "HTTP/1.1"),
   ("GATEWAY_INTERFACE", "CGI/1.1")]
  ++ (match ctx.content_type with
      | some ct => [("CONTENT_TYPE", ct)]
      | none => [])
  ++ (if ctx.content_length > 0 then
        [("CONTENT_LENGTH", toString ctx.content_length)]
      else [])

/-- `pox_web_register_variables` (embed.c lines 654-766) over the
thread-local slot: nothing is registered without a current request; with one,
the CGI block is registered and then, when the header block is non-`NULL`,
the derived `HTTP_*` variables. -/
def pox_web_register_variables (cr : Option pox_request_context) :
    List (String × String) :=
  match cr with
  | none => []
  | some ctx =>
    pox_web_register_cgi_vars ctx
      ++ (match ctx.headers with
          | none => []
          | some hs =>
            (pox_web_register_http_vars hs).map
              (fun p => (String.mk p.1, String.mk p.2)))

/-! ## Worker mode (embed.c lines 936-1097) -/

/-- `pox_worker_state` (embed.c lines 936-940); the C `int` flags are used
strictly as booleans. -/
structure pox_worker_state where
  is_worker_mode : Bool
  waiting_for_request : Bool
  pending_request : Option pox_request_context
deriving Repr, DecidableEq

/-- Observable outcome of one `pox_handle_request` call. -/
inductive HandleOutcome where
  /-- `zend_throw_exception(spl_ce_RuntimeException, msg, 0); RETURN_THROWS();` -/
  | threw (msg : String)
  /-- `RETURN_FALSE` (shutdown signalled, or no pending request). -/
  | returnedFalse
  /-- Reached the `Serving` entry with the given context state and, after the
  guest engine ran the callback, `RETURN_TRUE`. -/
  | served (entry_ctx : pox_request_context)
deriving Repr, DecidableEq

/-- `PHP_FUNCTION(pox_handle_request)` (embed.c lines 959-1097), up to the
`Serving` entry.  `got_request` is the value returned by the blocking
primitive `pox_worker_wait_for_request()` (host-controlled); it is consulted
only after the worker-mode check passes.  The script-level callback, run by
the guest engine between the `Serving` entry and the return, is external and
not modelled; the `served` outcome carries the context state handed to it. -/
def pox_handle_request (ws : pox_worker_state) (got_request : Bool) :
    pox_worker_state × HandleOutcome :=
  if ¬ ws.is_worker_mode then
    (ws, .threw "pox_handle_request() called while not in worker mode")
  else
    -- waiting_for_request is set to 1, the wait blocks, then it is reset to 0
    let ws2 := { ws with waiting_for_request := false }
    if ¬ got_request then
      (ws2, .returnedFalse)
    else
      match ws2.pending_request with
      | none => (ws2, .returnedFalse)
      | some ctx =>
        -- Serving entry: current_request = pending; response fields reset
        -- (embed.c lines 992-1002); after the callback, pending_request and
        -- current_request are cleared (lines 1093-1094) and TRUE is returned.
        ({ ws2 with pending_request := none },
         .served (reset_response_fields ctx))

/-- A concrete request context (the spec §8 end-to-end scenario: `POST`
`/submit` with body `"name=Alice"`), with stale response fields left over
from a previous execution; used to evaluate the theorems below on a
concrete input. -/
def sampleCtx : pox_request_context :=
  { method := some "POST"
    uri := some "/submit"
    query_string := none
    content_type := some "application/x-www-form-urlencoded"
    content_length := 10
    request_body := some "name=Alice".toList
    request_body_len := 10
    request_body_read := 2
    headers := some "Content-Type: application/x-www-form-urlencoded\nContent-Length: 10".toList
    document_root := some "/var/www"
    script_filename := some "/var/www/index.php"
    server_name := some "example.com"
    server_port := 8080
    remote_addr := some "10.0.0.1"
    remote_port := 4242
    response_body := ⟨some "old body".toList, 8, 8192⟩
    response_headers := ⟨some "X-Old: 1\n".toList, 9, 4096⟩
    response_status := 500 }

/-! ## Supporting lemmas -/

theorem growCapFuel_le (fuel init needed : Nat) :
    ∀ cap, cap ≤ growCapFuel fuel init needed cap := by
  induction fuel with
  | zero => intro cap; simp [growCapFuel]
  | succ n ih =>
    intro cap
    simp only [growCapFuel]
    by_cases h : needed ≥ cap
    · simp only [h, if_true]
      refine le_trans ?_ (ih _)
      by_cases hc : cap = 0
      · simp [hc]
      · simp only [hc, if_false]; omega
    · simp [h]

theorem growCap_le (init needed cap : Nat) : cap ≤ growCap init needed cap :=
  growCapFuel_le _ _ _ _

/-- The fuel used by `growCap` suffices: starting from a positive capacity
with enough fuel, the loop ends with capacity strictly above `needed`. -/
theorem growCapFuel_gt (init needed : Nat) :
    ∀ fuel cap, 1 ≤ cap → needed + 2 ≤ cap + fuel →
      needed < growCapFuel fuel init needed cap := by
  intro fuel
  induction fuel with
  | zero => intro cap _ h; simp [growCapFuel]; omega
  | succ n ih =>
    intro cap hc h
    simp only [growCapFuel]
    by_cases hge : needed ≥ cap
    · simp only [hge, if_true]
      have hcap : ¬ cap = 0 := by omega
      simp only [hcap, if_false]
      exact ih (cap * 2) (by omega) (by omega)
    · simp [hge]; omega

/-- With a positive initial capacity the modelled loop, like the C loop,
always ends with capacity strictly greater than `needed`. -/
theorem growCap_gt (init needed cap : Nat) (hinit : 1 ≤ init) :
    needed < growCap init needed cap := by
  unfold growCap
  simp only [growCapFuel]
  by_cases hge : needed ≥ cap
  · simp only [hge, if_true]
    by_cases hc : cap = 0
    · subst hc
      simp only [if_true]
      exact growCapFuel_gt init needed (needed + 1) init hinit (by omega)
    · simp only [hc, if_false]
      exact growCapFuel_gt init needed (needed + 1) (cap * 2) (by omega) (by omega)
  · simp [hge]; omega

/-- Capacities produced by the grow loop stay in the doubling chain
`init * 2 ^ k` (or are still `0`, i.e. unallocated). -/
theorem growCapFuel_shape (init needed : Nat) :
    ∀ fuel cap, (cap = 0 ∨ ∃ k, cap = init * 2 ^ k) →
      growCapFuel fuel init needed cap = 0 ∨
      ∃ k, growCapFuel fuel init needed cap = init * 2 ^ k := by
  intro fuel
  induction fuel with
  | zero => intro cap h; simpa [growCapFuel] using h
  | succ n ih =>
    intro cap h
    simp only [growCapFuel]
    by_cases hge : needed ≥ cap
    · simp only [hge, if_true]
      apply ih
      by_cases hc : cap = 0
      · simp only [hc, if_true]
        right; exact ⟨0, by simp⟩
      · simp only [hc, if_false]
        rcases h with h | ⟨k, hk⟩
        · exact absurd h hc
        · right; exact ⟨k + 1, by rw [hk]; ring⟩
    · simp only [hge, if_false]; exact h

theorem growCap_shape (init needed cap : Nat)
    (h : cap = 0 ∨ ∃ k, cap = init * 2 ^ k) :
    growCap init needed cap = 0 ∨ ∃ k, growCap init needed cap = init * 2 ^ k :=
  growCapFuel_shape _ _ _ _ h

theorem append_response_body_content (b : RespBuf) (data : List Char) :
    (append_response_body b data).content = b.content ++ data := rfl

theorem append_response_header_content (b : RespBuf) (header : List Char) :
    (append_response_header b header).content = b.content ++ header ++ ['\n'] := rfl

theorem foldl_append_body_content (chunks : List (List Char)) :
    ∀ b : RespBuf,
      (chunks.foldl append_response_body b).content = b.content ++ chunks.flatten := by
  induction chunks with
  | nil => intro b; simp
  | cons c cs ih =>
    intro b
    simp [List.foldl_cons, ih, append_response_body_content, List.append_assoc]

theorem foldl_append_header_content (chunks : List (List Char)) :
    ∀ b : RespBuf,
      (chunks.foldl append_response_header b).content
        = b.content ++ (chunks.map (fun c => c ++ ['\n'])).flatten := by
  induction chunks with
  | nil => intro b; simp
  | cons c cs ih =>
    intro b
    simp [List.foldl_cons, ih, append_response_header_content, List.append_assoc]

theorem foldl_append_body_cap_shape (chunks : List (List Char)) :
    ∀ b : RespBuf, (b.cap = 0 ∨ ∃ k, b.cap = 8192 * 2 ^ k) →
      (chunks.foldl append_response_body b).cap = 0 ∨
      ∃ k, (chunks.foldl append_response_body b).cap = 8192 * 2 ^ k := by
  induction chunks with
  | nil => intro b h; simpa using h
  | cons c cs ih =>
    intro b h
    simp only [List.foldl_cons]
    exact ih _ (growCap_shape _ _ _ h)

theorem foldl_append_header_cap_shape (chunks : List (List Char)) :
    ∀ b : RespBuf, (b.cap = 0 ∨ ∃ k, b.cap = 4096 * 2 ^ k) →
      (chunks.foldl append_response_header b).cap = 0 ∨
      ∃ k, (chunks.foldl append_response_header b).cap = 4096 * 2 ^ k := by
  induction chunks with
  | nil => intro b h; simpa using h
  | cons c cs ih =>
    intro b h
    simp only [List.foldl_cons]
    exact ih _ (growCap_shape _ _ _ h)

theorem splitNL_ne_nil : ∀ s : List Char, splitNL s ≠ [] := by
  intro s
  induction s with
  | nil => simp [splitNL]
  | cons c tl ih =>
    simp only [splitNL]
    by_cases h : c = '\n'
    · simp [h]
    · simp only [h, if_false]
      cases htl : splitNL tl with
      | nil => simp
      | cons a as => simp

/-- The plain newline split and the C line walk agree except that the former
may keep one final empty line (empty block, or block ending in `'\n'`). -/
theorem splitNL_eq_cLines_or (s : List Char) :
    splitNL s = cLines s ++ [[]] ∨ splitNL s = cLines s := by
  induction s with
  | nil => left; rfl
  | cons c tl ih =>
    by_cases h : c = '\n'
    · simp only [splitNL, cLines, h, if_true]
      rcases ih with ih | ih
      · left; rw [ih]; rfl
      · right; rw [ih]
    · simp only [splitNL, cLines, h, if_false]
      cases hcl : cLines tl with
      | nil =>
        have hs : splitNL tl = [[]] := by
          rcases ih with ih | ih
          · rw [ih, hcl]; rfl
          · exact absurd (ih.trans hcl) (splitNL_ne_nil tl)
        rw [hs]
        right; rfl
      | cons a as =>
        rcases ih with ih | ih
        · rw [ih, hcl]
          left; rfl
        · rw [ih, hcl]
          right; rfl

theorem filterMap_splitNL_eq_cLines {α : Type} (p : List Char → Option α)
    (hp : p [] = none) (s : List Char) :
    (splitNL s).filterMap p = (cLines s).filterMap p := by
  rcases splitNL_eq_cLines_or s with h | h
  · rw [h, List.filterMap_append]
    simp [hp]
  · rw [h]

theorem findSome?_concat_nil {α : Type} (p : List Char → Option α)
    (hp : p [] = none) :
    ∀ l : List (List Char), (l ++ [[]]).findSome? p = l.findSome? p := by
  intro l
  induction l with
  | nil => simp [List.findSome?, hp]
  | cons a as ih =>
    simp only [List.cons_append, List.findSome?]
    cases p a with
    | none => simpa using ih
    | some v => simp

theorem findSome?_splitNL_eq_cLines {α : Type} (p : List Char → Option α)
    (hp : p [] = none) (s : List Char) :
    (splitNL s).findSome? p = (cLines s).findSome? p := by
  rcases splitNL_eq_cLines_or s with h | h
  · rw [h, findSome?_concat_nil p hp]
  · rw [h]

/-- The per-line `HTTP_*` projection of the code coincides with the
spec-worded one on every line. -/
theorem http_var_of_line_eq_spec (line : List Char) :
    http_var_of_line line = http_var_of_line_spec line := by
  unfold http_var_of_line http_var_of_line_spec
  by_cases hc : ':' ∈ line
  · have hne : line.dropWhile (fun c => ¬ c = ':') ≠ [] := by
      simp only [ne_eq, List.dropWhile_eq_nil_iff]
      push_neg
      exact ⟨':', hc, by simp⟩
    cases h : line.dropWhile (fun c => ¬ c = ':') with
    | nil => exact absurd h hne
    | cons d after => simp [hc, h]
  · have hnil : line.dropWhile (fun c => ¬ c = ':') = [] := by
      rw [List.dropWhile_eq_nil_iff]
      intro x hx
      simp only [decide_not, Bool.not_eq_true', decide_eq_false_iff_not]
      intro hxc
      exact hc (hxc ▸ hx)
    simp only [decide_not] at hnil ⊢
    simp [hc, hnil]

theorem http_var_of_line_nil : http_var_of_line [] = none := rfl

theorem cookie_of_line_nil : cookie_of_line [] = none := rfl

/-- The oracle grow loop never lowers the capacity, whether it fails or not. -/
theorem growCapAlloc_le (init needed : Nat) :
    ∀ (allocs : List Bool) (cap : Nat), cap ≤ (growCapAlloc init needed cap allocs).2 := by
  intro allocs
  induction allocs with
  | nil =>
    intro cap
    simp only [growCapAlloc]
    by_cases h : needed ≥ cap <;> simp [h]
  | cons ok rest ih =>
    intro cap
    simp only [growCapAlloc]
    by_cases h : needed ≥ cap
    · simp only [h, if_true]
      cases ok with
      | false => simp
      | true =>
        simp only [if_true]
        refine le_trans ?_ (ih _)
        by_cases hc : cap = 0
        · simp [hc]
        · simp only [hc, if_false]; omega
    · simp [h]

/-- Extracting the `Serving`-entry context from a `served` outcome. -/
theorem pox_handle_request_served (ws : pox_worker_state) (got : Bool)
    (entry : pox_request_context)
    (h : (pox_handle_request ws got).2 = .served entry) :
    ∃ c0, ws.pending_request = some c0 ∧ entry = reset_response_fields c0 := by
  unfold pox_handle_request at h
  by_cases hw : ws.is_worker_mode
  · by_cases hg : got
    · cases hp : ws.pending_request with
      | none => simp [hw, hg, hp] at h
      | some c0 =>
        simp only [hw, hg, hp, not_true, if_false, if_neg, Bool.not_true] at h
        simp at h
        exact ⟨c0, rfl, h.symm⟩
    · simp [hw, hg] at h
  · simp [hw] at h

/-- Concrete evaluation of a failing grow sequence: on a fresh body buffer
with a 10000-byte chunk, the first `realloc` (to 8192) succeeds and the
second (to 16384) fails. -/
theorem growCapAlloc_sample :
    growCapAlloc 8192 (RespBuf.empty.len + (List.replicate 10000 'a').length)
      RespBuf.empty.cap [true, false] = (false, 8192) := by
  rw [List.length_replicate]
  decide

/-! ## Claim theorems -/

/-- Claim C1 (confirmed): at the start of every execution — when
`pox_web_execute(ctx)` begins, and at every `Serving` entry inside
`pox_handle_request` in worker mode — the response body and header buffers
are `NULL` with zero length and zero capacity, the response status is 200,
and the request-body read cursor is 0, for every request context; no
execution begins with buffer state left over from a previous execution. -/
theorem claim_C1_fresh_response_state
    (ctx : pox_request_context) (ws : pox_worker_state) (got : Bool)
    (entry : pox_request_context)
    (hserved : (pox_handle_request ws got).2 = .served entry) :
    (pox_web_execute_start ctx).response_body = ⟨none, 0, 0⟩
  ∧ (pox_web_execute_start ctx).response_headers = ⟨none, 0, 0⟩
  ∧ (pox_web_execute_start ctx).response_status = 200
  ∧ (pox_web_execute_start ctx).request_body_read = 0
  ∧ entry.response_body = ⟨none, 0, 0⟩
  ∧ entry.response_headers = ⟨none, 0, 0⟩
  ∧ entry.response_status = 200
  ∧ entry.request_body_read = 0 := by
  obtain ⟨c0, -, rfl⟩ := pox_handle_request_served ws got entry hserved
  exact ⟨rfl, rfl, rfl, rfl, rfl, rfl, rfl, rfl⟩

/-- Witness for C1 at a concrete context and worker state. -/
theorem claim_C1_fresh_response_state_witness :
    (pox_web_execute_start sampleCtx).response_body = ⟨none, 0, 0⟩
  ∧ (pox_web_execute_start sampleCtx).response_headers = ⟨none, 0, 0⟩
  ∧ (pox_web_execute_start sampleCtx).response_status = 200
  ∧ (pox_web_execute_start sampleCtx).request_body_read = 0
  ∧ (reset_response_fields sampleCtx).response_body = ⟨none, 0, 0⟩
  ∧ (reset_response_fields sampleCtx).response_headers = ⟨none, 0, 0⟩
  ∧ (reset_response_fields sampleCtx).response_status = 200
  ∧ (reset_response_fields sampleCtx).request_body_read = 0 :=
  claim_C1_fresh_response_state sampleCtx ⟨true, false, some sampleCtx⟩ true
    (reset_response_fields sampleCtx) rfl

/-- Claim C2 (confirmed): appending any sequence of chunks (0-byte, 1-byte,
larger than the current capacity, ...) to a fresh response buffer, assuming
every allocation succeeds, yields exactly the concatenation of the chunks in
order — for the header buffer with one newline appended by the manager after
each entry; capacity grows by doubling from an initial capacity of 8192
(body) / 4096 (headers) and never shrinks. -/
theorem claim_C2_append_concatenation
    (chunks : List (List Char)) (b : RespBuf) (data : List Char) :
    (chunks.foldl append_response_body RespBuf.empty).content = chunks.flatten
  ∧ (chunks.foldl append_response_header RespBuf.empty).content
      = (chunks.map (fun c => c ++ ['\n'])).flatten
  ∧ b.cap ≤ (append_response_body b data).cap
  ∧ b.cap ≤ (append_response_header b data).cap
  ∧ ((chunks.foldl append_response_body RespBuf.empty).cap = 0
      ∨ ∃ k, (chunks.foldl append_response_body RespBuf.empty).cap = 8192 * 2 ^ k)
  ∧ ((chunks.foldl append_response_header RespBuf.empty).cap = 0
      ∨ ∃ k, (chunks.foldl append_response_header RespBuf.empty).cap = 4096 * 2 ^ k) := by
  refine ⟨?_, ?_, growCap_le _ _ _, growCap_le _ _ _, ?_, ?_⟩
  · simpa [RespBuf.empty, RespBuf.content] using
      foldl_append_body_content chunks RespBuf.empty
  · simpa [RespBuf.empty, RespBuf.content] using
      foldl_append_header_content chunks RespBuf.empty
  · exact foldl_append_body_cap_shape chunks RespBuf.empty (Or.inl rfl)
  · exact foldl_append_header_cap_shape chunks RespBuf.empty (Or.inl rfl)

/-- Counterexample to claim C3 as stated: `pox_free_response` does NOT reset
the length and capacity fields to zero — on a context whose body buffer
holds 8 bytes with capacity 8192, both fields survive the free. -/
theorem claim_C3_counterexample :
    (pox_free_response sampleCtx).response_body.mem = none
  ∧ (pox_free_response sampleCtx).response_body.len = 8
  ∧ (pox_free_response sampleCtx).response_body.len ≠ 0
  ∧ (pox_free_response sampleCtx).response_body.cap = 8192
  ∧ (pox_free_response sampleCtx).response_headers.cap ≠ 0 := by
  refine ⟨rfl, rfl, ?_, rfl, ?_⟩ <;> decide

/-- Claim C3 (corrected): `pox_free_response` frees the storage of both
response buffers, setting their pointers to `NULL`; the length and capacity
fields are left unchanged (not reset to zero).  It is idempotent: a second
call — in particular a call on a context whose buffers are already released
— changes nothing, and no pointer is freed twice (each free is guarded by a
non-`NULL` check). -/
theorem claim_C3_free_response (ctx : pox_request_context) :
    (pox_free_response ctx).response_body.mem = none
  ∧ (pox_free_response ctx).response_headers.mem = none
  ∧ (pox_free_response ctx).response_body.len = ctx.response_body.len
  ∧ (pox_free_response ctx).response_body.cap = ctx.response_body.cap
  ∧ (pox_free_response ctx).response_headers.len = ctx.response_headers.len
  ∧ (pox_free_response ctx).response_headers.cap = ctx.response_headers.cap
  ∧ pox_free_response (pox_free_response ctx) = pox_free_response ctx := by
  cases hb : ctx.response_body.mem <;> cases hh : ctx.response_headers.mem <;>
    simp [pox_free_response, hb, hh]

/-- Claim C4 (confirmed): the variable-registration step projects each
newline-delimited line containing a ':' as a variable `HTTP_` + the header
name with ASCII lowercase uppercased and dashes as underscores, valued by
the text after the first ':' with leading spaces and tabs trimmed; lines
with no ':' are ignored; derived names `HTTP_CONTENT_TYPE` and
`HTTP_CONTENT_LENGTH` are suppressed.  In particular
`"X-Custom-Header: v"` yields `HTTP_X_CUSTOM_HEADER = "v"` and a
Content-Type line yields no variable. -/
theorem claim_C4_http_header_projection :
    (∀ hs, pox_web_register_http_vars hs = http_vars_spec hs)
  ∧ pox_web_register_http_vars "X-Custom-Header: v".toList
      = [("HTTP_X_CUSTOM_HEADER".toList, "v".toList)]
  ∧ pox_web_register_http_vars "Content-Type: text/html".toList = []
  ∧ pox_web_register_http_vars "Content-Length: 10".toList = []
  ∧ pox_web_register_http_vars "no colon here".toList = [] := by
  refine ⟨?_, by decide, by decide, by decide, by decide⟩
  intro hs
  unfold pox_web_register_http_vars http_vars_spec
  have h : http_var_of_line_spec = http_var_of_line :=
    funext fun l => (http_var_of_line_eq_spec l).symm
  rw [h, filterMap_splitNL_eq_cLines _ http_var_of_line_nil]

/-- Claim C5 (confirmed): the environment projection always registers
`REQUEST_METHOD` (default `"GET"`), `REQUEST_URI` (default `"/"`),
`QUERY_STRING` (default empty), the script path and document root,
`SERVER_NAME` (default `"localhost"`), `SERVER_PORT` (80 when the context's
server port is non-positive), `REMOTE_ADDR` (default `"127.0.0.1"`),
`REMOTE_PORT`, and the fixed `SERVER_SOFTWARE` / `SERVER_PROTOCOL` /
`GATEWAY_INTERFACE` identity strings; `CONTENT_TYPE` is registered exactly
when a content type is present and `CONTENT_LENGTH` exactly when the content
length is positive. -/
theorem claim_C5_cgi_projection (ctx : pox_request_context) :
    (pox_web_register_cgi_vars ctx).lookup "REQUEST_METHOD"
        = some (ctx.method.getD "GET")
  ∧ (pox_web_register_cgi_vars ctx).lookup "REQUEST_URI" = some (ctx.uri.getD "/")
  ∧ (pox_web_register_cgi_vars ctx).lookup "QUERY_STRING"
        = some (ctx.query_string.getD "")
  ∧ (pox_web_register_cgi_vars ctx).lookup "SCRIPT_FILENAME"
        = some (ctx.script_filename.getD "")
  ∧ (pox_web_register_cgi_vars ctx).lookup "DOCUMENT_ROOT"
        = some (ctx.document_root.getD "")
  ∧ (pox_web_register_cgi_vars ctx).lookup "SERVER_NAME"
        = some (ctx.server_name.getD "localhost")
  ∧ (pox_web_register_cgi_vars ctx).lookup "SERVER_PORT"
        = some (toString (if ctx.server_port > 0 then ctx.server_port else 80))
  ∧ (pox_web_register_cgi_vars ctx).lookup "REMOTE_ADDR"
        = some (ctx.remote_addr.getD "127.0.0.1")
  ∧ (pox_web_register_cgi_vars ctx).lookup "REMOTE_PORT"
        = some (toString ctx.remote_port)
  ∧ (pox_web_register_cgi_vars ctx).lookup "SERVER_SOFTWARE" = some "phpx"
  ∧ (pox_web_register_cgi_vars ctx).lookup "SERVER_PROTOCOL" = some "HTTP/1.1"
  ∧ (pox_web_register_cgi_vars ctx).lookup "GATEWAY_INTERFACE" = some "CGI/1.1"
  ∧ (pox_web_register_cgi_vars ctx).lookup "CONTENT_TYPE" = ctx.content_type
  ∧ (pox_web_register_cgi_vars ctx).lookup "CONTENT_LENGTH"
        = (if ctx.content_length > 0 then some (toString ctx.content_length)
           else none) := by
  by_cases hcl : ctx.content_length > 0 <;>
    cases hct : ctx.content_type <;>
      simp [pox_web_register_cgi_vars, List.lookup, hcl, hct]

/-- Counterexample to claim C6 as stated: the header block `"Cookie:"`
consists of one line whose name case-insensitively matches `Cookie` (with
empty value), so the claimed scan yields that value, yet the code requires
the line to be strictly longer than `"Cookie:"` and returns the no-cookies
result. -/
theorem claim_C6_counterexample :
    pox_web_read_cookies_scan "Cookie:".toList = none
  ∧ read_cookies_claim "Cookie:".toList = some []
  ∧ pox_web_read_cookies_scan "Cookie:".toList
      ≠ read_cookies_claim "Cookie:".toList := by
  refine ⟨by decide, by decide, by decide⟩

/-- Claim C6 (corrected): cookie reading returns the value of the first
newline-delimited line that is longer than 7 bytes and whose first 7 bytes
case-insensitively equal `"Cookie:"` (so a bare `"Cookie:"` line with
nothing after the colon is not matched), with leading spaces and tabs after
the colon trimmed; when no such line exists it returns the no-cookies result
(`none`), which is not an error.  The block
`"Host: x\nCookie: a=1; b=2\nX-Foo: bar"` yields `"a=1; b=2"`. -/
theorem claim_C6_cookie_extraction (hs : List Char) :
    pox_web_read_cookies_scan hs = read_cookies_amended hs
  ∧ pox_web_read_cookies_scan "Host: x\nCookie: a=1; b=2\nX-Foo: bar".toList
      = some "a=1; b=2".toList
  ∧ pox_web_read_cookies_scan "Host: x\nX-Foo: bar".toList = none := by
  refine ⟨?_, by decide, by decide⟩
  unfold pox_web_read_cookies_scan read_cookies_amended
  exact (findSome?_splitNL_eq_cLines _ cookie_of_line_nil hs).symm

/-- Counterexample to claim C7 as stated: growth failure does not always
leave the capacity at its before-growth value.  On a fresh body buffer with
a 10000-byte chunk, the grow loop first doubles 0 → 8192 successfully, then
fails on the 8192 → 16384 reallocation: the append is dropped (no bytes, no
length change) but the capacity has moved from 0 to 8192. -/
theorem claim_C7_counterexample :
    (append_response_body_oom [true, false] RespBuf.empty (List.replicate 10000 'a'))
      = { mem := none, len := 0, cap := 8192 }
  ∧ (append_response_body_oom [true, false] RespBuf.empty
        (List.replicate 10000 'a')).cap ≠ RespBuf.empty.cap := by
  have h : append_response_body_oom [true, false] RespBuf.empty
      (List.replicate 10000 'a') = { mem := none, len := 0, cap := 8192 } := by
    unfold append_response_body_oom
    rw [growCapAlloc_sample]
    rfl
  exact ⟨h, by rw [h]; decide⟩

/-- Claim C7 (corrected): when growing a response buffer fails, the append
returns without copying any bytes and without updating the buffer's length —
content and length are exactly as captured before — and no error is signaled
to the caller; the capacity, however, keeps whatever value the successful
doublings before the failing allocation reached (it never shrinks, and is
unchanged only when the first allocation fails). -/
theorem claim_C7_growth_failure_drops_append
    (allocs allocs2 : List Bool) (b b2 : RespBuf) (data data2 : List Char)
    (hb : (growCapAlloc 8192 (b.len + data.length) b.cap allocs).1 = false)
    (hh : (growCapAlloc 4096 (b2.len + (data2.length + 1)) b2.cap allocs2).1 = false) :
    append_response_body_oom allocs b data
        = { b with cap := (growCapAlloc 8192 (b.len + data.length) b.cap allocs).2 }
  ∧ b.cap ≤ (append_response_body_oom allocs b data).cap
  ∧ append_response_header_oom allocs2 b2 data2
        = { b2 with
            cap := (growCapAlloc 4096 (b2.len + (data2.length + 1)) b2.cap allocs2).2 }
  ∧ b2.cap ≤ (append_response_header_oom allocs2 b2 data2).cap := by
  refine ⟨?_, ?_, ?_, ?_⟩
  · simp [append_response_body_oom, hb]
  · simp only [append_response_body_oom, hb]
    simpa using growCapAlloc_le 8192 (b.len + data.length) allocs b.cap
  · simp [append_response_header_oom, hh]
  · simp only [append_response_header_oom, hh]
    simpa using growCapAlloc_le 4096 (b2.len + (data2.length + 1)) allocs2 b2.cap

/-- Witness for C7 at concrete inputs: the very first allocation fails on
both fresh buffers, so even the capacity is unchanged and the two appends
are exact no-ops. -/
theorem claim_C7_growth_failure_drops_append_witness :
    append_response_body_oom [false] RespBuf.empty "hi".toList
        = { RespBuf.empty with
            cap := (growCapAlloc 8192 (RespBuf.empty.len + "hi".toList.length)
              RespBuf.empty.cap [false]).2 }
  ∧ RespBuf.empty.cap ≤ (append_response_body_oom [false] RespBuf.empty "hi".toList).cap
  ∧ append_response_header_oom [false] RespBuf.empty "X: y".toList
        = { RespBuf.empty with
            cap := (growCapAlloc 4096 (RespBuf.empty.len + ("X: y".toList.length + 1))
              RespBuf.empty.cap [false]).2 }
  ∧ RespBuf.empty.cap
      ≤ (append_response_header_oom [false] RespBuf.empty "X: y".toList).cap :=
  claim_C7_growth_failure_drops_append [false] [false] RespBuf.empty RespBuf.empty
    "hi".toList "X: y".toList (by decide) (by decide)

/-- Claim C8 (confirmed): with a request body of length `L` and read cursor
`p ≤ L`, reading up to `N` bytes returns `min N (L - p)` bytes copied from
position `p` and advances the cursor by exactly that amount; at the end of
the body — or on a context with no body at all (`request_body` `NULL`,
embed.c line 598) — the read returns no bytes and the cursor (and whole
context) does not move. -/
theorem claim_C8_read_post (ctx ctx2 : pox_request_context) (body : List Char) (count : Nat)
    (hbody : ctx.request_body = some body)
    (hlen : ctx.request_body_len = body.length)
    (hpos : ctx.request_body_read ≤ body.length)
    (hnone : ctx2.request_body = none) :
    (pox_web_read_post (some ctx) count).2
        = (body.drop ctx.request_body_read).take
            (min count (body.length - ctx.request_body_read))
  ∧ (pox_web_read_post (some ctx) count).2.length
        = min count (body.length - ctx.request_body_read)
  ∧ (pox_web_read_post (some ctx) count).1
        = some { ctx with request_body_read := ctx.request_body_read + min count (body.length - ctx.request_body_read) }
  ∧ (ctx.request_body_read = body.length →
        pox_web_read_post (some ctx) count = (some ctx, []))
  ∧ pox_web_read_post (some ctx2) count = (some ctx2, []) := by
  have hnobody : pox_web_read_post (some ctx2) count = (some ctx2, []) := by
    simp [pox_web_read_post, hnone]
  have hiteq : (if count < body.length - ctx.request_body_read then count
      else body.length - ctx.request_body_read)
      = min count (body.length - ctx.request_body_read) := by
    rcases Nat.lt_or_ge count (body.length - ctx.request_body_read) with h | h
    · simp [h, Nat.min_eq_left (Nat.le_of_lt h)]
    · simp [Nat.not_lt.mpr h, Nat.min_eq_right h]
  by_cases hrem : body.length - ctx.request_body_read = 0
  · have hmin : min count (body.length - ctx.request_body_read) = 0 := by omega
    have hexp : pox_web_read_post (some ctx) count = (some ctx, []) := by
      simp [pox_web_read_post, hbody, hlen, hrem]
    rw [hexp]
    refine ⟨?_, ?_, ?_, fun _ => rfl, hnobody⟩
    · simp [hmin]
    · simp [hmin]
    · rw [hmin]
      exact rfl
  · have hexp : pox_web_read_post (some ctx) count =
        (some { ctx with request_body_read := ctx.request_body_read + min count (body.length - ctx.request_body_read) },
         (body.drop ctx.request_body_read).take
            (min count (body.length - ctx.request_body_read))) := by
      simp [pox_web_read_post, hbody, hlen, hrem, hiteq]
    rw [hexp]
    refine ⟨rfl, ?_, rfl, ?_, hnobody⟩
    · simp only [List.length_take, List.length_drop]
      omega
    · intro h
      exfalso
      omega

/-- Witness for C8 at the concrete sample context (`body "name=Alice"`,
length 10, cursor 2, reading up to 4 bytes) and at the same context with its
body pointer `NULL`. -/
theorem claim_C8_read_post_witness :
    (pox_web_read_post (some sampleCtx) 4).2
        = ("name=Alice".toList.drop sampleCtx.request_body_read).take
            (min 4 ("name=Alice".toList.length - sampleCtx.request_body_read))
  ∧ (pox_web_read_post (some sampleCtx) 4).2.length
        = min 4 ("name=Alice".toList.length - sampleCtx.request_body_read)
  ∧ (pox_web_read_post (some sampleCtx) 4).1
        = some { sampleCtx with request_body_read := sampleCtx.request_body_read + min 4 ("name=Alice".toList.length - sampleCtx.request_body_read) }
  ∧ (sampleCtx.request_body_read = "name=Alice".toList.length →
        pox_web_read_post (some sampleCtx) 4 = (some sampleCtx, []))
  ∧ pox_web_read_post (some { sampleCtx with request_body := none }) 4
        = (some { sampleCtx with request_body := none }, []) :=
  claim_C8_read_post sampleCtx { sampleCtx with request_body := none }
    "name=Alice".toList 4 rfl (by decide) (by decide) rfl

/-- Claim C9 (confirmed): invoking `pox_handle_request` while the thread is
not in worker mode immediately throws a `RuntimeException` — the call
returns the thrown outcome without consulting the wait-for-request
primitive (the result is the same whatever the wait would have produced)
and without mutating the worker handshake state. -/
theorem claim_C9_not_worker_mode_throws (ws : pox_worker_state) (got : Bool)
    (h : ws.is_worker_mode = false) :
    pox_handle_request ws got
      = (ws, .threw "pox_handle_request() called while not in worker mode") := by
  simp [pox_handle_request, h]

/-- Witness for C9 at a concrete non-worker state. -/
theorem claim_C9_not_worker_mode_throws_witness :
    pox_handle_request ⟨false, false, none⟩ true
      = (⟨false, false, none⟩,
         .threw "pox_handle_request() called while not in worker mode") :=
  claim_C9_not_worker_mode_throws ⟨false, false, none⟩ true rfl

/-- Claim C10 (confirmed): every execution-adapter callback is safe when the
thread-local current-request slot is `NULL`: the output write reports the
full length as written while appending nothing, send-headers reports success
without touching any buffer, the POST read returns 0 bytes, the cookie read
returns the absent result, and variable registration registers nothing;
none of them dereferences the missing context or mutates any state. -/
theorem claim_C10_callbacks_null_slot_safe
    (str : List Char) (status_line : Option (List Char)) (code : Int)
    (hdrs : List (List Char)) (n : Nat) :
    pox_web_ub_write none str = (none, str.length)
  ∧ pox_web_send_headers none status_line code hdrs = (none, true)
  ∧ pox_web_read_post none n = (none, [])
  ∧ pox_web_read_cookies none = none
  ∧ pox_web_register_variables none = [] :=
  ⟨rfl, rfl, rfl, rfl, rfl⟩

end Pox
